import Mathlib

/-!
Shallow embedding of `src/lib/monitoring/aws-redshift/RedshiftClusterMonitoring.ts`
(repository `cdk-monitoring-constructs`).

The file under `src/` defines the class `RedshiftClusterMonitoring`:
its constructor resolves the metric bindings, runs two alarm loops
(disk usage first, cpu usage second) that append to `usageAnnotations`
and to the inherited alarm collection, optionally hands the created
alarms to `props.useCreatedAlarms`, and exposes the two fixed layouts
`summaryWidgets()` (4 widgets) and `widgets()` (6 widgets).

External collaborators (`UsageAlarmFactory`, `RedshiftClusterMetricFactory`,
`GraphWidget`, the axis and sizing constants from `../../common`, and the
`Monitoring` base class) are code of the repository that is not under
`src/`; they are modelled from the spec, each with a doc comment starting
`Modelled from the spec:`.
-/

/-- Modelled from the spec: the fixed catalogue of named metrics exposed by
the external `RedshiftClusterMetricFactory` (one role per factory method
used in the constructor, source lines 81-93). -/
inductive MetricRole where
  | totalConnectionCount
  | averageDiskSpaceUsageInPercent
  | averageCpuUsageInPercent
  | shortQueryDurationP90InMillis
  | mediumQueryDurationP90InMillis
  | longQueryDurationP90InMillis
  | readLatencyP90InMillis
  | writeLatencyP90InMillis
  | maintenanceModeEnabled
deriving DecidableEq, Repr

/-- Modelled from the spec: `UsageThreshold` from `../../common` — a numeric
limit plus an evaluation policy that is opaque to this core. -/
structure UsageThreshold where
  maxUsagePercent : Int
deriving DecidableEq, Repr

/-- Modelled from the spec: `HorizontalAnnotation` from `aws-cloudwatch` —
a visual threshold marker with a value and a label. -/
structure Annot where
  value : Int
  label : String
deriving DecidableEq, Repr

/-- Modelled from the spec: `AlarmWithAnnotation` from `../../common` — one
alarm entity whose identity derives from the metric role and the
disambiguator, carrying the threshold used and a 1:1 derived marker. -/
structure AlarmWithAnnot where
  metric : MetricRole
  disambiguator : String
  threshold : UsageThreshold
  annot : Annot
deriving DecidableEq, Repr

namespace UsageAlarmFactory

/-- Modelled from the spec: `UsageAlarmFactory.addMaxDiskUsagePercentAlarm`
(external primitive) — builds one alarm plus its derived marker
`{value := limit, label := disambiguator}`. -/
def addMaxDiskUsagePercentAlarm (metric : MetricRole) (t : UsageThreshold)
    (disambiguator : String) : AlarmWithAnnot :=
  { metric := metric, disambiguator := disambiguator, threshold := t,
    annot := { value := t.maxUsagePercent, label := disambiguator } }

/-- Modelled from the spec: `UsageAlarmFactory.addMaxCpuUsagePercentAlarm`
(external primitive) — same shape as the disk variant. -/
def addMaxCpuUsagePercentAlarm (metric : MetricRole) (t : UsageThreshold)
    (disambiguator : String) : AlarmWithAnnot :=
  { metric := metric, disambiguator := disambiguator, threshold := t,
    annot := { value := t.maxUsagePercent, label := disambiguator } }

end UsageAlarmFactory

/-- Modelled from the spec: the four distinct value-axis constants imported
from `../../common`. -/
inductive Axis where
  | percentageAxisFromZeroToHundred
  | countAxisFromZero
  | timeAxisMillisFromZero
  | booleanAxisFromZeroToOne
deriving DecidableEq, Repr

/-- Modelled from the spec: sizing constant `ThirdWidth` from `../../common`
(thirds of the 24-unit dashboard grid). -/
def ThirdWidth : Nat := 8

/-- Modelled from the spec: sizing constant `QuarterWidth` from `../../common`. -/
def QuarterWidth : Nat := 6

/-- Modelled from the spec: sizing constant `HalfQuarterWidth` from `../../common`. -/
def HalfQuarterWidth : Nat := 3

/-- Modelled from the spec: `DefaultSummaryWidgetHeight` from `../../common`
(the summary layout uses the shorter height). -/
def DefaultSummaryWidgetHeight : Nat := 5

/-- Modelled from the spec: `DefaultGraphWidgetHeight` from `../../common`
(the detailed layout uses the taller height). -/
def DefaultGraphWidgetHeight : Nat := 8

/-- A widget descriptor: either the `MonitoringHeaderWidget` (source line
140-146) or a `GraphWidget` with the fields the source passes (width,
height, title, `left` metric list, `leftYAxis`, `leftAnnotations`;
`leftAnnotations` defaults to the empty list when the source omits it). -/
inductive Widget where
  | header (family : String) (title : String) (goToLinkUrl : Option String)
  | graph (width : Nat) (height : Nat) (title : String)
      (left : List MetricRole) (leftYAxis : Axis) (leftAnnotations : List Annot)
deriving DecidableEq, Repr

/-- `RedshiftClusterMonitoringProps` (source lines 33-40): the cluster
identifier, the two optional threshold maps (`Record<string, UsageThreshold>`
modelled as an ordered entry list, iterated in order by `for..in`), and
whether the optional `useCreatedAlarms` consumer of `BaseMonitoringProps`
is supplied. -/
structure RedshiftClusterMonitoringProps where
  clusterIdentifier : String
  addDiskSpaceUsageAlarm : Option (List (String × UsageThreshold))
  addCpuUsageAlarm : Option (List (String × UsageThreshold))
  useCreatedAlarms : Bool
deriving DecidableEq, Repr

/-- The state of a constructed `RedshiftClusterMonitoring` (source lines
42-58): resolved title and console url, the `usageAnnotations` sequence,
the nine metric bindings, the inherited alarm collection (`createdAlarms`
of the `Monitoring` base class, modelled from the spec as an append-only
list), and the record of arguments handed to the optional consumer. -/
structure RedshiftClusterMonitoring where
  title : String
  url : Option String
  usageAnnotations : List Annot
  connectionsMetric : MetricRole
  diskSpaceUsageMetric : MetricRole
  cpuUsageMetric : MetricRole
  shortQueryDurationMetric : MetricRole
  mediumQueryDurationMetric : MetricRole
  longQueryDurationMetric : MetricRole
  readLatencyMetric : MetricRole
  writeLatencyMetric : MetricRole
  maintenanceModeMetric : MetricRole
  createdAlarms : List AlarmWithAnnot
  consumerInvocations : List (List AlarmWithAnnot)
deriving DecidableEq, Repr

/-- One alarm loop of the constructor (source lines 95-104 and 106-115):
for each `(disambiguator, alarmProps)` entry in iteration order, call the
factory, push the created alarm's marker onto `usageAnnotations` and the
alarm onto the collection. The factory may fail (the external collaborator
may throw); on failure the loop stops at once and the state reached so far
is kept, mirroring the already-performed mutations of `this`. -/
def processUsageAlarmLoop {ε : Type}
    (mk : UsageThreshold → String → Except ε AlarmWithAnnot) :
    List (String × UsageThreshold) → RedshiftClusterMonitoring →
    RedshiftClusterMonitoring × Option ε
  | [], st => (st, none)
  | (disambiguator, alarmProps) :: rest, st =>
    match mk alarmProps disambiguator with
    | Except.error e => (st, some e)
    | Except.ok createdAlarm =>
        processUsageAlarmLoop mk rest
          { st with
            usageAnnotations := st.usageAnnotations ++ [createdAlarm.annot],
            createdAlarms := st.createdAlarms ++ [createdAlarm] }

/-- The constructor body (source lines 60-118), parametric in the two
external factory calls so that collaborator failure can be studied: bind
the metrics, run the disk-usage loop, then the cpu-usage loop, then hand
the created alarms to the optional consumer. A collaborator failure
propagates unchanged as the second component, with the partially built
state as the first. -/
def RedshiftClusterMonitoring.constructE {ε : Type}
    (mkDisk mkCpu : MetricRole → UsageThreshold → String → Except ε AlarmWithAnnot)
    (title : String) (url : Option String)
    (props : RedshiftClusterMonitoringProps) :
    RedshiftClusterMonitoring × Option ε :=
  let base : RedshiftClusterMonitoring :=
    { title := title, url := url, usageAnnotations := [],
      connectionsMetric := MetricRole.totalConnectionCount,
      diskSpaceUsageMetric := MetricRole.averageDiskSpaceUsageInPercent,
      cpuUsageMetric := MetricRole.averageCpuUsageInPercent,
      shortQueryDurationMetric := MetricRole.shortQueryDurationP90InMillis,
      mediumQueryDurationMetric := MetricRole.mediumQueryDurationP90InMillis,
      longQueryDurationMetric := MetricRole.longQueryDurationP90InMillis,
      readLatencyMetric := MetricRole.readLatencyP90InMillis,
      writeLatencyMetric := MetricRole.writeLatencyP90InMillis,
      maintenanceModeMetric := MetricRole.maintenanceModeEnabled,
      createdAlarms := [], consumerInvocations := [] }
  match processUsageAlarmLoop (mkDisk base.diskSpaceUsageMetric)
      (props.addDiskSpaceUsageAlarm.getD []) base with
  | (st, some e) => (st, some e)
  | (st, none) =>
    match processUsageAlarmLoop (mkCpu base.cpuUsageMetric)
        (props.addCpuUsageAlarm.getD []) st with
    | (st2, some e) => (st2, some e)
    | (st2, none) =>
      (if props.useCreatedAlarms then
        { st2 with consumerInvocations := st2.consumerInvocations ++ [st2.createdAlarms] }
      else st2, none)

/-- The disk-usage factory on the success path. -/
def okDiskFactory (m : MetricRole) (t : UsageThreshold) (d : String) :
    Except Unit AlarmWithAnnot :=
  Except.ok (UsageAlarmFactory.addMaxDiskUsagePercentAlarm m t d)

/-- The cpu-usage factory on the success path. -/
def okCpuFactory (m : MetricRole) (t : UsageThreshold) (d : String) :
    Except Unit AlarmWithAnnot :=
  Except.ok (UsageAlarmFactory.addMaxCpuUsagePercentAlarm m t d)

/-- The constructor when both external factory calls succeed. -/
def RedshiftClusterMonitoring.construct (title : String) (url : Option String)
    (props : RedshiftClusterMonitoringProps) : RedshiftClusterMonitoring :=
  (RedshiftClusterMonitoring.constructE okDiskFactory okCpuFactory title url props).1

/-- `createTitleWidget` (source lines 140-146). -/
def RedshiftClusterMonitoring.createTitleWidget
    (m : RedshiftClusterMonitoring) : Widget :=
  Widget.header "Redshift Cluster" m.title m.url

/-- `createCpuAndDiskUsageWidget` (source lines 148-157): cpu metric then
disk metric on the percentage axis, with the whole accumulated
`usageAnnotations` sequence attached. -/
def RedshiftClusterMonitoring.createCpuAndDiskUsageWidget
    (m : RedshiftClusterMonitoring) (width height : Nat) : Widget :=
  Widget.graph width height "CPU/Disk Usage"
    [m.cpuUsageMetric, m.diskSpaceUsageMetric]
    Axis.percentageAxisFromZeroToHundred m.usageAnnotations

/-- `createConnectionsWidget` (source lines 159-167). -/
def RedshiftClusterMonitoring.createConnectionsWidget
    (m : RedshiftClusterMonitoring) (width height : Nat) : Widget :=
  Widget.graph width height "Connections" [m.connectionsMetric]
    Axis.countAxisFromZero []

/-- `createQueryDurationWidget` (source lines 169-181). -/
def RedshiftClusterMonitoring.createQueryDurationWidget
    (m : RedshiftClusterMonitoring) (width height : Nat) : Widget :=
  Widget.graph width height "Query Duration"
    [m.shortQueryDurationMetric, m.mediumQueryDurationMetric,
     m.longQueryDurationMetric]
    Axis.timeAxisMillisFromZero []

/-- `createLatencyWidget` (source lines 183-191). -/
def RedshiftClusterMonitoring.createLatencyWidget
    (m : RedshiftClusterMonitoring) (width height : Nat) : Widget :=
  Widget.graph width height "Latency"
    [m.readLatencyMetric, m.writeLatencyMetric]
    Axis.timeAxisMillisFromZero []

/-- `createMaintenanceWidget` (source lines 193-201). -/
def RedshiftClusterMonitoring.createMaintenanceWidget
    (m : RedshiftClusterMonitoring) (width height : Nat) : Widget :=
  Widget.graph width height "Maintenance" [m.maintenanceModeMetric]
    Axis.booleanAxisFromZeroToOne []

/-- `summaryWidgets` (source lines 120-127). -/
def RedshiftClusterMonitoring.summaryWidgets
    (m : RedshiftClusterMonitoring) : List Widget :=
  [m.createTitleWidget,
   m.createCpuAndDiskUsageWidget ThirdWidth DefaultSummaryWidgetHeight,
   m.createConnectionsWidget ThirdWidth DefaultSummaryWidgetHeight,
   m.createQueryDurationWidget ThirdWidth DefaultSummaryWidgetHeight]

/-- `widgets` (source lines 129-138). -/
def RedshiftClusterMonitoring.widgets
    (m : RedshiftClusterMonitoring) : List Widget :=
  [m.createTitleWidget,
   m.createCpuAndDiskUsageWidget QuarterWidth DefaultGraphWidgetHeight,
   m.createConnectionsWidget QuarterWidth DefaultGraphWidgetHeight,
   m.createQueryDurationWidget QuarterWidth DefaultGraphWidgetHeight,
   m.createLatencyWidget HalfQuarterWidth DefaultGraphWidgetHeight,
   m.createMaintenanceWidget HalfQuarterWidth DefaultGraphWidgetHeight]

/-- One key update of a TypeScript `Record<string, UsageThreshold>` object
literal: writing a key that is already present replaces its value in
place (last write wins, original key position kept); a fresh key is
appended. Models the JavaScript object semantics behind the
`Record<string, UsageThreshold>` type of the options (source lines 33-36). -/
def recordSet (r : List (String × UsageThreshold)) (k : String)
    (v : UsageThreshold) : List (String × UsageThreshold) :=
  if r.any (fun p => p.1 == k) then
    r.map (fun p => if p.1 == k then (p.1, v) else p)
  else r ++ [(k, v)]

/-- Building a `Record<string, UsageThreshold>` from a written-down sequence
of key/value pairs, applying `recordSet` left to right. -/
def recordOfEntries (l : List (String × UsageThreshold)) :
    List (String × UsageThreshold) :=
  l.foldl (fun r p => recordSet r p.1 p.2) []

/-- The annotation list a widget descriptor carries. -/
def widgetAnnots : Widget → List Annot
  | Widget.header _ _ _ => []
  | Widget.graph _ _ _ _ _ anns => anns

/-- The metric references a widget descriptor carries. -/
def widgetMetrics : Widget → List MetricRole
  | Widget.header _ _ _ => []
  | Widget.graph _ _ _ left _ _ => left

/-- The value axis a graph widget uses (a header widget has none). -/
def widgetAxis : Widget → Option Axis
  | Widget.header _ _ _ => none
  | Widget.graph _ _ _ _ ax _ => some ax

/-- The width a graph widget uses (the header widget's width is fixed by the
external header primitive, not by this source file). -/
def widgetWidth : Widget → Option Nat
  | Widget.header _ _ _ => none
  | Widget.graph w _ _ _ _ _ => some w

/-- Modelled from the spec: the unit family of each metric in the external
factory's catalogue (percentage for the two usage metrics, count for
connections, time-in-millis for durations and latencies, boolean for the
maintenance flag), expressed as the matching axis constant. -/
def unitFamily : MetricRole → Axis
  | MetricRole.totalConnectionCount => Axis.countAxisFromZero
  | MetricRole.averageDiskSpaceUsageInPercent => Axis.percentageAxisFromZeroToHundred
  | MetricRole.averageCpuUsageInPercent => Axis.percentageAxisFromZeroToHundred
  | MetricRole.shortQueryDurationP90InMillis => Axis.timeAxisMillisFromZero
  | MetricRole.mediumQueryDurationP90InMillis => Axis.timeAxisMillisFromZero
  | MetricRole.longQueryDurationP90InMillis => Axis.timeAxisMillisFromZero
  | MetricRole.readLatencyP90InMillis => Axis.timeAxisMillisFromZero
  | MetricRole.writeLatencyP90InMillis => Axis.timeAxisMillisFromZero
  | MetricRole.maintenanceModeEnabled => Axis.booleanAxisFromZeroToOne

/-- A widget is axis-consistent when every metric it references belongs to
the unit family of its value axis. -/
def widgetAxisConsistent : Widget → Bool
  | Widget.header _ _ _ => true
  | Widget.graph _ _ _ left ax _ => left.all (fun r => decide (unitFamily r = ax))

/-- The alarm built for one disk-usage threshold entry. -/
def diskAlarmOf (p : String × UsageThreshold) : AlarmWithAnnot :=
  UsageAlarmFactory.addMaxDiskUsagePercentAlarm
    MetricRole.averageDiskSpaceUsageInPercent p.2 p.1

/-- The alarm built for one cpu-usage threshold entry. -/
def cpuAlarmOf (p : String × UsageThreshold) : AlarmWithAnnot :=
  UsageAlarmFactory.addMaxCpuUsagePercentAlarm
    MetricRole.averageCpuUsageInPercent p.2 p.1

/-- All alarms a successful construction creates: the disk-usage alarms in
map order followed by the cpu-usage alarms in map order. -/
def allAlarmsOf (props : RedshiftClusterMonitoringProps) : List AlarmWithAnnot :=
  (props.addDiskSpaceUsageAlarm.getD []).map diskAlarmOf ++
    (props.addCpuUsageAlarm.getD []).map cpuAlarmOf

theorem processUsageAlarmLoop_ok {ε : Type}
    (mk : UsageThreshold → String → Except ε AlarmWithAnnot)
    (g : String × UsageThreshold → AlarmWithAnnot)
    (entries : List (String × UsageThreshold))
    (st : RedshiftClusterMonitoring)
    (h : ∀ p ∈ entries, mk p.2 p.1 = Except.ok (g p)) :
    processUsageAlarmLoop mk entries st =
      ({ st with
          usageAnnotations := st.usageAnnotations ++ entries.map (fun p => (g p).annot),
          createdAlarms := st.createdAlarms ++ entries.map g }, none) := by
  induction entries generalizing st with
  | nil => simp [processUsageAlarmLoop]
  | cons p rest ih =>
    obtain ⟨d, t⟩ := p
    rw [processUsageAlarmLoop, h ⟨d, t⟩ (List.mem_cons_self _ _)]
    dsimp only
    rw [ih _ (fun q hq => h q (List.mem_cons_of_mem _ hq))]
    simp

theorem processUsageAlarmLoop_append_of_ok {ε : Type}
    (mk : UsageThreshold → String → Except ε AlarmWithAnnot)
    (xs ys : List (String × UsageThreshold))
    (st st' : RedshiftClusterMonitoring)
    (h : processUsageAlarmLoop mk xs st = (st', none)) :
    processUsageAlarmLoop mk (xs ++ ys) st = processUsageAlarmLoop mk ys st' := by
  induction xs generalizing st with
  | nil =>
    simp [processUsageAlarmLoop] at h
    simp [h]
  | cons p rest ih =>
    obtain ⟨d, t⟩ := p
    rw [processUsageAlarmLoop] at h
    rw [show ((d, t) :: rest) ++ ys = (d, t) :: (rest ++ ys) from rfl,
      processUsageAlarmLoop]
    cases hmk : mk t d with
    | error e =>
      rw [hmk] at h
      simp at h
    | ok a =>
      rw [hmk] at h
      dsimp only at h ⊢
      exact ih _ h

/-- Full characterisation of the successful constructor run. -/
theorem construct_eq (title : String) (url : Option String)
    (props : RedshiftClusterMonitoringProps) :
    RedshiftClusterMonitoring.construct title url props =
      { title := title, url := url,
        usageAnnotations :=
          (props.addDiskSpaceUsageAlarm.getD []).map (fun p => (diskAlarmOf p).annot) ++
            (props.addCpuUsageAlarm.getD []).map (fun p => (cpuAlarmOf p).annot),
        connectionsMetric := MetricRole.totalConnectionCount,
        diskSpaceUsageMetric := MetricRole.averageDiskSpaceUsageInPercent,
        cpuUsageMetric := MetricRole.averageCpuUsageInPercent,
        shortQueryDurationMetric := MetricRole.shortQueryDurationP90InMillis,
        mediumQueryDurationMetric := MetricRole.mediumQueryDurationP90InMillis,
        longQueryDurationMetric := MetricRole.longQueryDurationP90InMillis,
        readLatencyMetric := MetricRole.readLatencyP90InMillis,
        writeLatencyMetric := MetricRole.writeLatencyP90InMillis,
        maintenanceModeMetric := MetricRole.maintenanceModeEnabled,
        createdAlarms := allAlarmsOf props,
        consumerInvocations :=
          if props.useCreatedAlarms then [allAlarmsOf props] else [] } := by
  unfold RedshiftClusterMonitoring.construct RedshiftClusterMonitoring.constructE
  dsimp only
  rw [processUsageAlarmLoop_ok (okDiskFactory MetricRole.averageDiskSpaceUsageInPercent)
        diskAlarmOf (props.addDiskSpaceUsageAlarm.getD []) _ (fun p _ => rfl)]
  dsimp only
  rw [processUsageAlarmLoop_ok (okCpuFactory MetricRole.averageCpuUsageInPercent)
        cpuAlarmOf (props.addCpuUsageAlarm.getD []) _ (fun p _ => rfl)]
  cases props.useCreatedAlarms <;> simp [allAlarmsOf]

/-- C1: after construction with a disk-usage threshold map of size N and a
cpu-usage threshold map of size M, `usageAnnotations` is exactly the
markers of the disk-usage alarms in map-iteration order followed by the
markers of the cpu-usage alarms in map-iteration order, hence has N + M
entries with every disk marker preceding every cpu marker. -/
theorem c1_usage_annotation_sequence (title : String) (url : Option String)
    (props : RedshiftClusterMonitoringProps) :
    (RedshiftClusterMonitoring.construct title url props).usageAnnotations =
      (props.addDiskSpaceUsageAlarm.getD []).map (fun p => (diskAlarmOf p).annot) ++
        (props.addCpuUsageAlarm.getD []).map (fun p => (cpuAlarmOf p).annot) ∧
    (RedshiftClusterMonitoring.construct title url props).usageAnnotations.length =
      (props.addDiskSpaceUsageAlarm.getD []).length +
        (props.addCpuUsageAlarm.getD []).length := by
  rw [construct_eq]
  simp

/-- C2: in both layouts the combined CPU/Disk usage widget carries exactly
the full accumulated `usageAnnotations` sequence (same elements, same
order), and every other widget carries no markers. -/
theorem c2_annotation_propagation (title : String) (url : Option String)
    (props : RedshiftClusterMonitoringProps) :
    (RedshiftClusterMonitoring.construct title url props).summaryWidgets.map widgetAnnots =
      [[], (RedshiftClusterMonitoring.construct title url props).usageAnnotations, [], []] ∧
    (RedshiftClusterMonitoring.construct title url props).widgets.map widgetAnnots =
      [[], (RedshiftClusterMonitoring.construct title url props).usageAnnotations,
        [], [], [], []] :=
  ⟨rfl, rfl⟩

/-- C3: for every configuration, including when both threshold maps are
absent or empty, `summaryWidgets` returns exactly 4 widget descriptors and
`widgets` returns exactly 6; the layout shape does not depend on the
number of alarms. -/
theorem c3_layout_sizes (title : String) (url : Option String)
    (props : RedshiftClusterMonitoringProps) :
    (RedshiftClusterMonitoring.construct title url props).summaryWidgets.length = 4 ∧
    (RedshiftClusterMonitoring.construct title url props).widgets.length = 6 :=
  ⟨rfl, rfl⟩

/-- C4: in both layouts every widget's value axis matches the unit family
of every metric it references: the CPU/Disk widget uses the percentage
axis, the connections widget the count axis, the query-duration and
latency widgets the time-in-millis axis, the maintenance widget the
boolean axis, and no widget mixes metrics from different axis families. -/
theorem c4_axis_unit_families (title : String) (url : Option String)
    (props : RedshiftClusterMonitoringProps) :
    (RedshiftClusterMonitoring.construct title url props).summaryWidgets.map widgetAxis =
      [none, some Axis.percentageAxisFromZeroToHundred, some Axis.countAxisFromZero,
        some Axis.timeAxisMillisFromZero] ∧
    (RedshiftClusterMonitoring.construct title url props).widgets.map widgetAxis =
      [none, some Axis.percentageAxisFromZeroToHundred, some Axis.countAxisFromZero,
        some Axis.timeAxisMillisFromZero, some Axis.timeAxisMillisFromZero,
        some Axis.booleanAxisFromZeroToOne] ∧
    ((RedshiftClusterMonitoring.construct title url props).summaryWidgets ++
        (RedshiftClusterMonitoring.construct title url props).widgets).all
      widgetAxisConsistent = true := by
  refine ⟨rfl, rfl, ?_⟩
  rw [construct_eq]
  rfl

/-- C5: both layout accessors are pure functions of the title, the url, the
metric bindings and the accumulated `usageAnnotations` sequence only: two
states agreeing on those fields yield structurally identical widget
sequences, so repeated calls with unchanged state are idempotent, and
layout construction is total. -/
theorem c5_layout_pure_idempotent (m₁ m₂ : RedshiftClusterMonitoring)
    (ht : m₁.title = m₂.title) (hu : m₁.url = m₂.url)
    (ha : m₁.usageAnnotations = m₂.usageAnnotations)
    (h₁ : m₁.connectionsMetric = m₂.connectionsMetric)
    (h₂ : m₁.diskSpaceUsageMetric = m₂.diskSpaceUsageMetric)
    (h₃ : m₁.cpuUsageMetric = m₂.cpuUsageMetric)
    (h₄ : m₁.shortQueryDurationMetric = m₂.shortQueryDurationMetric)
    (h₅ : m₁.mediumQueryDurationMetric = m₂.mediumQueryDurationMetric)
    (h₆ : m₁.longQueryDurationMetric = m₂.longQueryDurationMetric)
    (h₇ : m₁.readLatencyMetric = m₂.readLatencyMetric)
    (h₈ : m₁.writeLatencyMetric = m₂.writeLatencyMetric)
    (h₉ : m₁.maintenanceModeMetric = m₂.maintenanceModeMetric) :
    m₁.summaryWidgets = m₂.summaryWidgets ∧ m₁.widgets = m₂.widgets := by
  constructor <;>
    simp [RedshiftClusterMonitoring.summaryWidgets, RedshiftClusterMonitoring.widgets,
      RedshiftClusterMonitoring.createTitleWidget,
      RedshiftClusterMonitoring.createCpuAndDiskUsageWidget,
      RedshiftClusterMonitoring.createConnectionsWidget,
      RedshiftClusterMonitoring.createQueryDurationWidget,
      RedshiftClusterMonitoring.createLatencyWidget,
      RedshiftClusterMonitoring.createMaintenanceWidget,
      ht, hu, ha, h₁, h₂, h₃, h₄, h₅, h₆, h₇, h₈, h₉]

/-- A sample configuration: one disk-usage threshold, one cpu-usage
threshold, consumer supplied. -/
def sampleProps : RedshiftClusterMonitoringProps :=
  { clusterIdentifier := "cluster-1",
    addDiskSpaceUsageAlarm := some [("Warning", { maxUsagePercent := 80 })],
    addCpuUsageAlarm := some [("Critical", { maxUsagePercent := 90 })],
    useCreatedAlarms := true }

/-- Witness for C5 at a concrete constructed state. -/
theorem c5_layout_pure_idempotent_witness :
    (RedshiftClusterMonitoring.construct "MyCluster" none sampleProps).summaryWidgets =
      (RedshiftClusterMonitoring.construct "MyCluster" none sampleProps).summaryWidgets ∧
    (RedshiftClusterMonitoring.construct "MyCluster" none sampleProps).widgets =
      (RedshiftClusterMonitoring.construct "MyCluster" none sampleProps).widgets :=
  c5_layout_pure_idempotent _ _ rfl rfl rfl rfl rfl rfl rfl rfl rfl rfl rfl rfl

/-- C6: the optional consumer is handed the complete final alarm collection
exactly once, after both threshold maps have been fully processed, and no
invocation happens when no consumer is supplied. -/
theorem c6_consumer_callback (title : String) (url : Option String)
    (props : RedshiftClusterMonitoringProps) :
    (RedshiftClusterMonitoring.construct title url props).consumerInvocations =
      (if props.useCreatedAlarms then [allAlarmsOf props] else []) ∧
    (RedshiftClusterMonitoring.construct title url props).createdAlarms =
      allAlarmsOf props := by
  rw [construct_eq]
  exact ⟨rfl, rfl⟩

/-- C7: in the detailed layout the first four widgets mirror the summary
set (same metric grouping and axes) with the graph panels at quarter
width, widget 5 is the latency widget pairing the read and write latency
metrics on the time axis at half-quarter width, and widget 6 is the
maintenance widget with the maintenance-flag metric alone on the boolean
axis at half-quarter width. -/
theorem c7_detailed_layout_shape (title : String) (url : Option String)
    (props : RedshiftClusterMonitoringProps) :
    ((RedshiftClusterMonitoring.construct title url props).widgets.take 4).map
        (fun w => (widgetMetrics w, widgetAxis w)) =
      (RedshiftClusterMonitoring.construct title url props).summaryWidgets.map
        (fun w => (widgetMetrics w, widgetAxis w)) ∧
    (RedshiftClusterMonitoring.construct title url props).widgets.map widgetWidth =
      [none, some QuarterWidth, some QuarterWidth, some QuarterWidth,
        some HalfQuarterWidth, some HalfQuarterWidth] ∧
    (RedshiftClusterMonitoring.construct title url props).widgets.drop 4 =
      [Widget.graph HalfQuarterWidth DefaultGraphWidgetHeight "Latency"
          [MetricRole.readLatencyP90InMillis, MetricRole.writeLatencyP90InMillis]
          Axis.timeAxisMillisFromZero [],
        Widget.graph HalfQuarterWidth DefaultGraphWidgetHeight "Maintenance"
          [MetricRole.maintenanceModeEnabled] Axis.booleanAxisFromZeroToOne []] := by
  refine ⟨rfl, rfl, ?_⟩
  rw [construct_eq]
  rfl

/-- C10: the metric references inside each multi-metric widget appear in a
fixed order in both layouts: cpu usage before disk usage in the usage
widget, short then medium then long in the query-duration widget, and
read latency before write latency in the latency widget. -/
theorem c10_metric_reference_order (title : String) (url : Option String)
    (props : RedshiftClusterMonitoringProps) :
    (RedshiftClusterMonitoring.construct title url props).summaryWidgets.map widgetMetrics =
      [[],
        [MetricRole.averageCpuUsageInPercent, MetricRole.averageDiskSpaceUsageInPercent],
        [MetricRole.totalConnectionCount],
        [MetricRole.shortQueryDurationP90InMillis, MetricRole.mediumQueryDurationP90InMillis,
          MetricRole.longQueryDurationP90InMillis]] ∧
    (RedshiftClusterMonitoring.construct title url props).widgets.map widgetMetrics =
      [[],
        [MetricRole.averageCpuUsageInPercent, MetricRole.averageDiskSpaceUsageInPercent],
        [MetricRole.totalConnectionCount],
        [MetricRole.shortQueryDurationP90InMillis, MetricRole.mediumQueryDurationP90InMillis,
          MetricRole.longQueryDurationP90InMillis],
        [MetricRole.readLatencyP90InMillis, MetricRole.writeLatencyP90InMillis],
        [MetricRole.maintenanceModeEnabled]] := by
  rw [construct_eq]
  exact ⟨rfl, rfl⟩

/-- Disk-loop failure: if the builder fails on one entry of the disk-usage
threshold map, construction stops with that error; the alarms and markers
of the earlier disk entries remain appended, the cpu-usage map is never
processed and the consumer is never invoked. -/
theorem constructE_disk_failure (title : String) (url : Option String)
    (cid : String) (cpu : Option (List (String × UsageThreshold)))
    (useConsumer : Bool)
    (mkDisk mkCpu : MetricRole → UsageThreshold → String → Except String AlarmWithAnnot)
    (g : String × UsageThreshold → AlarmWithAnnot)
    (pre post : List (String × UsageThreshold)) (e : String × UsageThreshold)
    (err : String)
    (hok : ∀ p ∈ pre,
      mkDisk MetricRole.averageDiskSpaceUsageInPercent p.2 p.1 = Except.ok (g p))
    (hfail : mkDisk MetricRole.averageDiskSpaceUsageInPercent e.2 e.1 =
      Except.error err) :
    RedshiftClusterMonitoring.constructE mkDisk mkCpu title url
      { clusterIdentifier := cid,
        addDiskSpaceUsageAlarm := some (pre ++ e :: post),
        addCpuUsageAlarm := cpu, useCreatedAlarms := useConsumer } =
      ({ title := title, url := url,
         usageAnnotations := pre.map (fun p => (g p).annot),
         connectionsMetric := MetricRole.totalConnectionCount,
         diskSpaceUsageMetric := MetricRole.averageDiskSpaceUsageInPercent,
         cpuUsageMetric := MetricRole.averageCpuUsageInPercent,
         shortQueryDurationMetric := MetricRole.shortQueryDurationP90InMillis,
         mediumQueryDurationMetric := MetricRole.mediumQueryDurationP90InMillis,
         longQueryDurationMetric := MetricRole.longQueryDurationP90InMillis,
         readLatencyMetric := MetricRole.readLatencyP90InMillis,
         writeLatencyMetric := MetricRole.writeLatencyP90InMillis,
         maintenanceModeMetric := MetricRole.maintenanceModeEnabled,
         createdAlarms := pre.map g,
         consumerInvocations := [] }, some err) := by
  obtain ⟨d, t⟩ := e
  unfold RedshiftClusterMonitoring.constructE
  dsimp only
  rw [show (some (pre ++ (d, t) :: post)).getD ([] : List (String × UsageThreshold)) =
        pre ++ (d, t) :: post from rfl]
  rw [processUsageAlarmLoop_append_of_ok _ pre ((d, t) :: post) _ _
        (processUsageAlarmLoop_ok _ g pre _ hok)]
  rw [processUsageAlarmLoop, hfail]
  simp

/-- A disk-usage factory that fails on the disambiguator `Critical` and
succeeds elsewhere. -/
def failingDiskFactory (m : MetricRole) (t : UsageThreshold) (d : String) :
    Except String AlarmWithAnnot :=
  if d = "Critical" then Except.error "injected failure"
  else Except.ok (UsageAlarmFactory.addMaxDiskUsagePercentAlarm m t d)

/-- A cpu-usage factory that always succeeds, with string errors. -/
def okCpuFactoryS (m : MetricRole) (t : UsageThreshold) (d : String) :
    Except String AlarmWithAnnot :=
  Except.ok (UsageAlarmFactory.addMaxCpuUsagePercentAlarm m t d)

/-- A disk-usage factory that always succeeds, with string errors. -/
def okDiskFactoryS (m : MetricRole) (t : UsageThreshold) (d : String) :
    Except String AlarmWithAnnot :=
  Except.ok (UsageAlarmFactory.addMaxDiskUsagePercentAlarm m t d)

/-- A cpu-usage factory that fails on the disambiguator `Critical` and
succeeds elsewhere. -/
def failingCpuFactory (m : MetricRole) (t : UsageThreshold) (d : String) :
    Except String AlarmWithAnnot :=
  if d = "Critical" then Except.error "injected cpu failure"
  else Except.ok (UsageAlarmFactory.addMaxCpuUsagePercentAlarm m t d)

/-- Cpu-loop failure: if the whole disk-usage map succeeds and the builder
fails on one entry of the cpu-usage map, construction stops with that
error; all disk-usage alarms plus the earlier cpu entries remain appended,
the later cpu entries are never processed and the consumer is never
invoked. -/
theorem constructE_cpu_failure (title : String) (url : Option String)
    (cid : String) (useConsumer : Bool)
    (mkDisk mkCpu : MetricRole → UsageThreshold → String → Except String AlarmWithAnnot)
    (gd gc : String × UsageThreshold → AlarmWithAnnot)
    (dl pre post : List (String × UsageThreshold)) (e : String × UsageThreshold)
    (err : String)
    (hokd : ∀ p ∈ dl,
      mkDisk MetricRole.averageDiskSpaceUsageInPercent p.2 p.1 = Except.ok (gd p))
    (hokc : ∀ p ∈ pre,
      mkCpu MetricRole.averageCpuUsageInPercent p.2 p.1 = Except.ok (gc p))
    (hfail : mkCpu MetricRole.averageCpuUsageInPercent e.2 e.1 =
      Except.error err) :
    RedshiftClusterMonitoring.constructE mkDisk mkCpu title url
      { clusterIdentifier := cid,
        addDiskSpaceUsageAlarm := some dl,
        addCpuUsageAlarm := some (pre ++ e :: post),
        useCreatedAlarms := useConsumer } =
      ({ title := title, url := url,
         usageAnnotations :=
           dl.map (fun p => (gd p).annot) ++ pre.map (fun p => (gc p).annot),
         connectionsMetric := MetricRole.totalConnectionCount,
         diskSpaceUsageMetric := MetricRole.averageDiskSpaceUsageInPercent,
         cpuUsageMetric := MetricRole.averageCpuUsageInPercent,
         shortQueryDurationMetric := MetricRole.shortQueryDurationP90InMillis,
         mediumQueryDurationMetric := MetricRole.mediumQueryDurationP90InMillis,
         longQueryDurationMetric := MetricRole.longQueryDurationP90InMillis,
         readLatencyMetric := MetricRole.readLatencyP90InMillis,
         writeLatencyMetric := MetricRole.writeLatencyP90InMillis,
         maintenanceModeMetric := MetricRole.maintenanceModeEnabled,
         createdAlarms := dl.map gd ++ pre.map gc,
         consumerInvocations := [] }, some err) := by
  obtain ⟨d, t⟩ := e
  unfold RedshiftClusterMonitoring.constructE
  dsimp only
  rw [show (some dl).getD ([] : List (String × UsageThreshold)) = dl from rfl]
  rw [show (some (pre ++ (d, t) :: post)).getD ([] : List (String × UsageThreshold)) =
        pre ++ (d, t) :: post from rfl]
  rw [processUsageAlarmLoop_ok _ gd dl _ hokd]
  dsimp only
  rw [processUsageAlarmLoop_append_of_ok _ pre ((d, t) :: post) _ _
        (processUsageAlarmLoop_ok _ gc pre _ hokc)]
  rw [processUsageAlarmLoop, hfail]
  simp

/-- C9: if the external alarm builder fails while constructing the N-th
alarm of either threshold map, construction fails fast with that error
propagated unchanged, and everything already created stays appended: for a
disk-loop failure the earlier disk entries' alarms and markers (the cpu
map is never processed), and for a cpu-loop failure all disk-usage alarms
plus the earlier cpu entries' alarms and markers; in both cases later
entries are never processed and the consumer is never invoked (non-atomic,
no rollback, no retry). -/
theorem c9_fail_fast_keeps_partial_state (title : String) (url : Option String)
    (cid : String) (cpu : Option (List (String × UsageThreshold)))
    (useConsumer useConsumer2 : Bool)
    (mkDisk mkCpu mkDisk2 mkCpu2 :
      MetricRole → UsageThreshold → String → Except String AlarmWithAnnot)
    (g gd2 gc2 : String × UsageThreshold → AlarmWithAnnot)
    (pre post dl2 pre2 post2 : List (String × UsageThreshold))
    (e e2 : String × UsageThreshold) (err err2 : String)
    (hok : ∀ p ∈ pre,
      mkDisk MetricRole.averageDiskSpaceUsageInPercent p.2 p.1 = Except.ok (g p))
    (hfail : mkDisk MetricRole.averageDiskSpaceUsageInPercent e.2 e.1 =
      Except.error err)
    (hok2d : ∀ p ∈ dl2,
      mkDisk2 MetricRole.averageDiskSpaceUsageInPercent p.2 p.1 = Except.ok (gd2 p))
    (hok2c : ∀ p ∈ pre2,
      mkCpu2 MetricRole.averageCpuUsageInPercent p.2 p.1 = Except.ok (gc2 p))
    (hfail2 : mkCpu2 MetricRole.averageCpuUsageInPercent e2.2 e2.1 =
      Except.error err2) :
    RedshiftClusterMonitoring.constructE mkDisk mkCpu title url
      { clusterIdentifier := cid,
        addDiskSpaceUsageAlarm := some (pre ++ e :: post),
        addCpuUsageAlarm := cpu, useCreatedAlarms := useConsumer } =
      ({ title := title, url := url,
         usageAnnotations := pre.map (fun p => (g p).annot),
         connectionsMetric := MetricRole.totalConnectionCount,
         diskSpaceUsageMetric := MetricRole.averageDiskSpaceUsageInPercent,
         cpuUsageMetric := MetricRole.averageCpuUsageInPercent,
         shortQueryDurationMetric := MetricRole.shortQueryDurationP90InMillis,
         mediumQueryDurationMetric := MetricRole.mediumQueryDurationP90InMillis,
         longQueryDurationMetric := MetricRole.longQueryDurationP90InMillis,
         readLatencyMetric := MetricRole.readLatencyP90InMillis,
         writeLatencyMetric := MetricRole.writeLatencyP90InMillis,
         maintenanceModeMetric := MetricRole.maintenanceModeEnabled,
         createdAlarms := pre.map g,
         consumerInvocations := [] }, some err) ∧
    RedshiftClusterMonitoring.constructE mkDisk2 mkCpu2 title url
      { clusterIdentifier := cid,
        addDiskSpaceUsageAlarm := some dl2,
        addCpuUsageAlarm := some (pre2 ++ e2 :: post2),
        useCreatedAlarms := useConsumer2 } =
      ({ title := title, url := url,
         usageAnnotations :=
           dl2.map (fun p => (gd2 p).annot) ++ pre2.map (fun p => (gc2 p).annot),
         connectionsMetric := MetricRole.totalConnectionCount,
         diskSpaceUsageMetric := MetricRole.averageDiskSpaceUsageInPercent,
         cpuUsageMetric := MetricRole.averageCpuUsageInPercent,
         shortQueryDurationMetric := MetricRole.shortQueryDurationP90InMillis,
         mediumQueryDurationMetric := MetricRole.mediumQueryDurationP90InMillis,
         longQueryDurationMetric := MetricRole.longQueryDurationP90InMillis,
         readLatencyMetric := MetricRole.readLatencyP90InMillis,
         writeLatencyMetric := MetricRole.writeLatencyP90InMillis,
         maintenanceModeMetric := MetricRole.maintenanceModeEnabled,
         createdAlarms := dl2.map gd2 ++ pre2.map gc2,
         consumerInvocations := [] }, some err2) :=
  ⟨constructE_disk_failure title url cid cpu useConsumer mkDisk mkCpu g
      pre post e err hok hfail,
    constructE_cpu_failure title url cid useConsumer2 mkDisk2 mkCpu2 gd2 gc2
      dl2 pre2 post2 e2 err2 hok2d hok2c hfail2⟩

/-- Witness for C9, exercising both failure scenarios: first the builder
fails on the second of three disk entries (the first disk entry's alarm
is kept, the cpu map untouched); then, with the disk map succeeding, the
builder fails on the second of three cpu entries (the disk alarm and the
first cpu entry's alarm are kept); the consumer is never invoked. -/
theorem c9_fail_fast_keeps_partial_state_witness :
    RedshiftClusterMonitoring.constructE failingDiskFactory okCpuFactoryS
      "MyCluster" none
      { clusterIdentifier := "cluster-1",
        addDiskSpaceUsageAlarm := some
          [("Warning", { maxUsagePercent := 80 }),
           ("Critical", { maxUsagePercent := 95 }),
           ("Late", { maxUsagePercent := 99 })],
        addCpuUsageAlarm := some [("CpuHigh", { maxUsagePercent := 90 })],
        useCreatedAlarms := true } =
      ({ title := "MyCluster", url := none,
         usageAnnotations := [{ value := 80, label := "Warning" }],
         connectionsMetric := MetricRole.totalConnectionCount,
         diskSpaceUsageMetric := MetricRole.averageDiskSpaceUsageInPercent,
         cpuUsageMetric := MetricRole.averageCpuUsageInPercent,
         shortQueryDurationMetric := MetricRole.shortQueryDurationP90InMillis,
         mediumQueryDurationMetric := MetricRole.mediumQueryDurationP90InMillis,
         longQueryDurationMetric := MetricRole.longQueryDurationP90InMillis,
         readLatencyMetric := MetricRole.readLatencyP90InMillis,
         writeLatencyMetric := MetricRole.writeLatencyP90InMillis,
         maintenanceModeMetric := MetricRole.maintenanceModeEnabled,
         createdAlarms :=
           [{ metric := MetricRole.averageDiskSpaceUsageInPercent,
              disambiguator := "Warning", threshold := { maxUsagePercent := 80 },
              annot := { value := 80, label := "Warning" } }],
         consumerInvocations := [] }, some "injected failure") ∧
    RedshiftClusterMonitoring.constructE okDiskFactoryS failingCpuFactory
      "MyCluster" none
      { clusterIdentifier := "cluster-1",
        addDiskSpaceUsageAlarm := some [("DiskHigh", { maxUsagePercent := 85 })],
        addCpuUsageAlarm := some
          [("CpuWarn", { maxUsagePercent := 70 }),
           ("Critical", { maxUsagePercent := 95 }),
           ("CpuLate", { maxUsagePercent := 99 })],
        useCreatedAlarms := true } =
      ({ title := "MyCluster", url := none,
         usageAnnotations :=
           [{ value := 85, label := "DiskHigh" }, { value := 70, label := "CpuWarn" }],
         connectionsMetric := MetricRole.totalConnectionCount,
         diskSpaceUsageMetric := MetricRole.averageDiskSpaceUsageInPercent,
         cpuUsageMetric := MetricRole.averageCpuUsageInPercent,
         shortQueryDurationMetric := MetricRole.shortQueryDurationP90InMillis,
         mediumQueryDurationMetric := MetricRole.mediumQueryDurationP90InMillis,
         longQueryDurationMetric := MetricRole.longQueryDurationP90InMillis,
         readLatencyMetric := MetricRole.readLatencyP90InMillis,
         writeLatencyMetric := MetricRole.writeLatencyP90InMillis,
         maintenanceModeMetric := MetricRole.maintenanceModeEnabled,
         createdAlarms :=
           [{ metric := MetricRole.averageDiskSpaceUsageInPercent,
              disambiguator := "DiskHigh", threshold := { maxUsagePercent := 85 },
              annot := { value := 85, label := "DiskHigh" } },
            { metric := MetricRole.averageCpuUsageInPercent,
              disambiguator := "CpuWarn", threshold := { maxUsagePercent := 70 },
              annot := { value := 70, label := "CpuWarn" } }],
         consumerInvocations := [] }, some "injected cpu failure") :=
  c9_fail_fast_keeps_partial_state "MyCluster" none "cluster-1"
    (some [("CpuHigh", { maxUsagePercent := 90 })]) true true
    failingDiskFactory okCpuFactoryS okDiskFactoryS failingCpuFactory
    diskAlarmOf diskAlarmOf cpuAlarmOf
    [("Warning", { maxUsagePercent := 80 })]
    [("Late", { maxUsagePercent := 99 })]
    [("DiskHigh", { maxUsagePercent := 85 })]
    [("CpuWarn", { maxUsagePercent := 70 })]
    [("CpuLate", { maxUsagePercent := 99 })]
    ("Critical", { maxUsagePercent := 95 })
    ("Critical", { maxUsagePercent := 95 })
    "injected failure" "injected cpu failure"
    (by
      intro p hp
      rw [List.mem_singleton] at hp
      subst hp
      simp [failingDiskFactory, diskAlarmOf])
    (by simp [failingDiskFactory])
    (by
      intro p hp
      rw [List.mem_singleton] at hp
      subst hp
      simp [okDiskFactoryS, diskAlarmOf])
    (by
      intro p hp
      rw [List.mem_singleton] at hp
      subst hp
      simp [failingCpuFactory, cpuAlarmOf])
    (by simp [failingCpuFactory])

theorem keyReplace_fst (kr : String) (v : UsageThreshold)
    (q : String × UsageThreshold) :
    (if q.1 == kr then (q.1, v) else q).1 = q.1 := by
  split <;> rfl

theorem filter_keyReplace_ne (k kr : String) (v : UsageThreshold)
    (r : List (String × UsageThreshold)) (hne : kr ≠ k) :
    (r.map (fun q => if q.1 == kr then (q.1, v) else q)).filter
        (fun p => p.1 == k) =
      r.filter (fun p => p.1 == k) := by
  induction r with
  | nil => rfl
  | cons q r ih =>
    simp only [List.map_cons, List.filter_cons, keyReplace_fst]
    by_cases hq : (q.1 == k) = true
    · have hq2 : (q.1 == kr) = false := by
        rw [beq_eq_false_iff_ne]
        rw [beq_iff_eq] at hq
        rw [hq]
        exact Ne.symm hne
      rw [if_pos hq, if_pos hq,
        if_neg (show ¬((q.1 == kr) = true) from by rw [hq2]; exact Bool.false_ne_true),
        ih]
    · rw [if_neg hq, if_neg hq, ih]

theorem filter_keyReplace_eq (k : String) (v : UsageThreshold)
    (r : List (String × UsageThreshold)) :
    (r.map (fun q => if q.1 == k then (q.1, v) else q)).filter
        (fun p => p.1 == k) =
      (r.filter (fun p => p.1 == k)).map (fun p => (p.1, v)) := by
  induction r with
  | nil => rfl
  | cons q r ih =>
    simp only [List.map_cons, List.filter_cons, keyReplace_fst]
    by_cases hq : (q.1 == k) = true
    · rw [if_pos hq, if_pos hq, if_pos hq]
      simp only [List.map_cons]
      rw [ih]
    · rw [if_neg hq, if_neg hq, ih]

theorem recordSet_filter_self (r : List (String × UsageThreshold)) (k : String)
    (v : UsageThreshold) :
    (recordSet r k v).filter (fun p => p.1 == k) =
      if r.any (fun p => p.1 == k) then
        (r.filter (fun p => p.1 == k)).map (fun p => (p.1, v))
      else r.filter (fun p => p.1 == k) ++ [(k, v)] := by
  by_cases h : r.any (fun p => p.1 == k) = true
  · rw [recordSet, if_pos h, if_pos h]
    exact filter_keyReplace_eq k v r
  · rw [recordSet, if_neg h, if_neg h]
    simp [List.filter_append]

theorem recordSet_filter_ne (r : List (String × UsageThreshold)) (k kr : String)
    (v : UsageThreshold) (hne : kr ≠ k) :
    (recordSet r kr v).filter (fun p => p.1 == k) =
      r.filter (fun p => p.1 == k) := by
  by_cases h : r.any (fun p => p.1 == kr) = true
  · rw [recordSet, if_pos h]
    exact filter_keyReplace_ne k kr v r hne
  · rw [recordSet, if_neg h]
    simp [List.filter_append, hne]

theorem recordFold_filter (k : String) (l : List (String × UsageThreshold)) :
    ∀ r : List (String × UsageThreshold),
      (r.filter (fun p => p.1 == k)).length ≤ 1 →
      ((l.foldl (fun r p => recordSet r p.1 p.2) r).filter
          (fun p => p.1 == k)).map Prod.snd =
        ((r.filter (fun p => p.1 == k)).map Prod.snd ++
            (l.filter (fun p => p.1 == k)).map Prod.snd).getLast?.toList := by
  induction l with
  | nil =>
    intro r hr
    simp only [List.foldl_nil, List.filter_nil, List.map_nil, List.append_nil]
    rcases hfil : r.filter (fun p => p.1 == k) with _ | ⟨x, xs⟩
    · rw [hfil]
      rfl
    · rcases xs with _ | ⟨y, ys⟩
      · rw [hfil]
        rfl
      · rw [hfil] at hr
        simp at hr
  | cons q l ih =>
    intro r hr
    simp only [List.foldl_cons, List.filter_cons]
    by_cases hq : (q.1 == k) = true
    · have hqk : q.1 = k := beq_iff_eq.mp hq
      have hnew : ((recordSet r q.1 q.2).filter (fun p => p.1 == k)).map Prod.snd =
          [q.2] := by
        rw [hqk, recordSet_filter_self]
        by_cases h : r.any (fun p => p.1 == k) = true
        · rw [if_pos h]
          obtain ⟨x, hx, hpx⟩ := List.any_eq_true.mp h
          have hmem : x ∈ r.filter (fun p => p.1 == k) :=
            List.mem_filter.mpr ⟨hx, hpx⟩
          have hlen1 : (r.filter (fun p => p.1 == k)).length = 1 := by
            have hpos := List.length_pos.mpr (List.ne_nil_of_mem hmem)
            omega
          obtain ⟨a, ha⟩ := List.length_eq_one.mp hlen1
          rw [ha]
          rfl
        · rw [if_neg h]
          have hnil : r.filter (fun p => p.1 == k) = [] :=
            List.filter_eq_nil_iff.mpr (by
              intro a hmem hpa
              exact h (List.any_eq_true.mpr ⟨a, hmem, hpa⟩))
          rw [hnil]
          rfl
      have hlen : ((recordSet r q.1 q.2).filter (fun p => p.1 == k)).length ≤ 1 := by
        have hcg := congrArg List.length hnew
        simp only [List.length_map] at hcg
        simp [hcg]
      have hih := ih (recordSet r q.1 q.2) hlen
      rw [hih, hnew]
      rw [if_pos hq]
      simp only [List.map_cons, List.singleton_append]
      rw [List.getLast?_append_cons]
    · have hqk : q.1 ≠ k := by
        intro hc
        exact hq (beq_iff_eq.mpr hc)
      have hfil := recordSet_filter_ne r k q.1 q.2 hqk
      have hih := ih (recordSet r q.1 q.2) (by rw [hfil]; exact hr)
      rw [hih, hfil]
      rw [if_neg hq]

/-- Building a record from written-down entries collapses duplicate keys:
for any key, the record's entries for that key are exactly the last value
written under that key (last write wins). -/
theorem recordOfEntries_filter (l : List (String × UsageThreshold)) (k : String) :
    ((recordOfEntries l).filter (fun p => p.1 == k)).map Prod.snd =
      ((l.filter (fun p => p.1 == k)).map Prod.snd).getLast?.toList := by
  have h := recordFold_filter k l [] (by simp)
  simpa [recordOfEntries] using h

theorem diskAlarmOf_disambiguator (p : String × UsageThreshold) :
    (diskAlarmOf p).disambiguator = p.1 := rfl

theorem diskAlarmOf_threshold (p : String × UsageThreshold) :
    (diskAlarmOf p).threshold = p.2 := rfl

theorem constructE_ok_no_error (title : String) (url : Option String)
    (props : RedshiftClusterMonitoringProps) :
    (RedshiftClusterMonitoring.constructE okDiskFactory okCpuFactory
        title url props).2 = none := by
  unfold RedshiftClusterMonitoring.constructE
  dsimp only
  rw [processUsageAlarmLoop_ok _ diskAlarmOf _ _ (fun p _ => rfl)]
  dsimp only
  rw [processUsageAlarmLoop_ok _ cpuAlarmOf _ _ (fun p _ => rfl)]


theorem cpuAlarmOf_disambiguator (p : String × UsageThreshold) :
    (cpuAlarmOf p).disambiguator = p.1 := rfl

theorem cpuAlarmOf_threshold (p : String × UsageThreshold) :
    (cpuAlarmOf p).threshold = p.2 := rfl

/-- Selects the alarms created for the disk-usage metric under the given
disambiguator. -/
def isDiskAlarmFor (k : String) (a : AlarmWithAnnot) : Bool :=
  decide (a.metric = MetricRole.averageDiskSpaceUsageInPercent) &&
    (a.disambiguator == k)

/-- Selects the alarms created for the cpu-usage metric under the given
disambiguator. -/
def isCpuAlarmFor (k : String) (a : AlarmWithAnnot) : Bool :=
  decide (a.metric = MetricRole.averageCpuUsageInPercent) &&
    (a.disambiguator == k)

theorem filter_isDiskAlarmFor_map_disk (k : String)
    (l : List (String × UsageThreshold)) :
    (l.map diskAlarmOf).filter (isDiskAlarmFor k) =
      (l.filter (fun p => p.1 == k)).map diskAlarmOf := by
  rw [List.filter_map]
  congr 1

theorem filter_isDiskAlarmFor_map_cpu (k : String)
    (l : List (String × UsageThreshold)) :
    (l.map cpuAlarmOf).filter (isDiskAlarmFor k) = [] := by
  rw [List.filter_map]
  have h : l.filter (isDiskAlarmFor k ∘ cpuAlarmOf) = l.filter (fun _ => false) :=
    List.filter_congr (fun p _ => rfl)
  rw [h]
  simp

theorem filter_isCpuAlarmFor_map_cpu (k : String)
    (l : List (String × UsageThreshold)) :
    (l.map cpuAlarmOf).filter (isCpuAlarmFor k) =
      (l.filter (fun p => p.1 == k)).map cpuAlarmOf := by
  rw [List.filter_map]
  congr 1

theorem filter_isCpuAlarmFor_map_disk (k : String)
    (l : List (String × UsageThreshold)) :
    (l.map diskAlarmOf).filter (isCpuAlarmFor k) = [] := by
  rw [List.filter_map]
  have h : l.filter (isCpuAlarmFor k ∘ diskAlarmOf) = l.filter (fun _ => false) :=
    List.filter_congr (fun p _ => rfl)
  rw [h]
  simp

theorem createdAlarms_filter_diskSlot (title : String) (url : Option String)
    (cid : String) (l : List (String × UsageThreshold)) (k : String)
    (otherCpu : Option (List (String × UsageThreshold))) (b : Bool) :
    (RedshiftClusterMonitoring.construct title url
        { clusterIdentifier := cid,
          addDiskSpaceUsageAlarm := some (recordOfEntries l),
          addCpuUsageAlarm := otherCpu,
          useCreatedAlarms := b }).createdAlarms.filter (isDiskAlarmFor k) =
      ((recordOfEntries l).filter (fun p => p.1 == k)).map diskAlarmOf := by
  rw [construct_eq]
  show (allAlarmsOf _).filter (isDiskAlarmFor k) = _
  rw [show allAlarmsOf
        { clusterIdentifier := cid,
          addDiskSpaceUsageAlarm := some (recordOfEntries l),
          addCpuUsageAlarm := otherCpu,
          useCreatedAlarms := b } =
      (recordOfEntries l).map diskAlarmOf ++ (otherCpu.getD []).map cpuAlarmOf from by
    simp [allAlarmsOf]]
  rw [List.filter_append, filter_isDiskAlarmFor_map_disk,
    filter_isDiskAlarmFor_map_cpu]
  simp

theorem createdAlarms_filter_cpuSlot (title : String) (url : Option String)
    (cid : String) (l : List (String × UsageThreshold)) (k : String)
    (otherDisk : Option (List (String × UsageThreshold))) (b : Bool) :
    (RedshiftClusterMonitoring.construct title url
        { clusterIdentifier := cid,
          addDiskSpaceUsageAlarm := otherDisk,
          addCpuUsageAlarm := some (recordOfEntries l),
          useCreatedAlarms := b }).createdAlarms.filter (isCpuAlarmFor k) =
      ((recordOfEntries l).filter (fun p => p.1 == k)).map cpuAlarmOf := by
  rw [construct_eq]
  show (allAlarmsOf _).filter (isCpuAlarmFor k) = _
  rw [show allAlarmsOf
        { clusterIdentifier := cid,
          addDiskSpaceUsageAlarm := otherDisk,
          addCpuUsageAlarm := some (recordOfEntries l),
          useCreatedAlarms := b } =
      (otherDisk.getD []).map diskAlarmOf ++ (recordOfEntries l).map cpuAlarmOf from by
    simp [allAlarmsOf]]
  rw [List.filter_append, filter_isCpuAlarmFor_map_disk,
    filter_isCpuAlarmFor_map_cpu]
  simp

theorem recordOfEntries_filter_length_one (l : List (String × UsageThreshold))
    (k : String) (hne : l.filter (fun p => p.1 == k) ≠ []) :
    ((recordOfEntries l).filter (fun p => p.1 == k)).length = 1 := by
  have hvals := recordOfEntries_filter l k
  have hne2 : (l.filter (fun p => p.1 == k)).map Prod.snd ≠ [] := by
    intro hc
    rw [List.map_eq_nil_iff] at hc
    exact hne hc
  obtain ⟨a, ha⟩ := Option.isSome_iff_exists.mp (List.getLast?_isSome.mpr hne2)
  have hlen := congrArg List.length hvals
  rw [List.length_map, ha] at hlen
  simpa using hlen

/-- C8: a threshold map in which two entries carry the same disambiguator —
placed in either the disk-usage or the cpu-usage slot, alongside an
arbitrary other map — collapses to a single alarm for that disambiguator,
with last-write-wins semantics on the threshold, and no error is raised by
this core. -/
theorem c8_duplicate_disambiguator_last_write_wins (title : String)
    (url : Option String) (cid : String)
    (l : List (String × UsageThreshold)) (k : String)
    (otherCpu otherDisk : Option (List (String × UsageThreshold)))
    (b₁ b₂ : Bool)
    (hdup : 2 ≤ (l.filter (fun p => p.1 == k)).length) :
    ((RedshiftClusterMonitoring.construct title url
          { clusterIdentifier := cid,
            addDiskSpaceUsageAlarm := some (recordOfEntries l),
            addCpuUsageAlarm := otherCpu,
            useCreatedAlarms := b₁ }).createdAlarms.filter
          (isDiskAlarmFor k)).map (fun a => a.threshold) =
      ((l.filter (fun p => p.1 == k)).map Prod.snd).getLast?.toList ∧
    ((RedshiftClusterMonitoring.construct title url
          { clusterIdentifier := cid,
            addDiskSpaceUsageAlarm := some (recordOfEntries l),
            addCpuUsageAlarm := otherCpu,
            useCreatedAlarms := b₁ }).createdAlarms.filter
          (isDiskAlarmFor k)).length = 1 ∧
    ((RedshiftClusterMonitoring.construct title url
          { clusterIdentifier := cid,
            addDiskSpaceUsageAlarm := otherDisk,
            addCpuUsageAlarm := some (recordOfEntries l),
            useCreatedAlarms := b₂ }).createdAlarms.filter
          (isCpuAlarmFor k)).map (fun a => a.threshold) =
      ((l.filter (fun p => p.1 == k)).map Prod.snd).getLast?.toList ∧
    ((RedshiftClusterMonitoring.construct title url
          { clusterIdentifier := cid,
            addDiskSpaceUsageAlarm := otherDisk,
            addCpuUsageAlarm := some (recordOfEntries l),
            useCreatedAlarms := b₂ }).createdAlarms.filter
          (isCpuAlarmFor k)).length = 1 ∧
    (RedshiftClusterMonitoring.constructE okDiskFactory okCpuFactory title url
        { clusterIdentifier := cid,
          addDiskSpaceUsageAlarm := some (recordOfEntries l),
          addCpuUsageAlarm := otherCpu,
          useCreatedAlarms := b₁ }).2 = none ∧
    (RedshiftClusterMonitoring.constructE okDiskFactory okCpuFactory title url
        { clusterIdentifier := cid,
          addDiskSpaceUsageAlarm := otherDisk,
          addCpuUsageAlarm := some (recordOfEntries l),
          useCreatedAlarms := b₂ }).2 = none := by
  have hne : l.filter (fun p => p.1 == k) ≠ [] := by
    intro hc
    rw [hc] at hdup
    simp at hdup
  refine ⟨?_, ?_, ?_, ?_, constructE_ok_no_error title url _,
    constructE_ok_no_error title url _⟩
  · rw [createdAlarms_filter_diskSlot, List.map_map]
    exact recordOfEntries_filter l k
  · rw [createdAlarms_filter_diskSlot, List.length_map]
    exact recordOfEntries_filter_length_one l k hne
  · rw [createdAlarms_filter_cpuSlot, List.map_map]
    exact recordOfEntries_filter l k
  · rw [createdAlarms_filter_cpuSlot, List.length_map]
    exact recordOfEntries_filter_length_one l k hne

/-- Witness for C8: the disambiguator `Usage` is written twice (limits 70
then 90) into the disk map alongside a cpu map, and into the cpu map
alongside a disk map; in each slot exactly one alarm results, carrying the
limit 90, and construction reports no error. -/
theorem c8_duplicate_disambiguator_last_write_wins_witness :
    ((RedshiftClusterMonitoring.construct "MyCluster" none
          { clusterIdentifier := "cluster-1",
            addDiskSpaceUsageAlarm := some (recordOfEntries
              [("Usage", { maxUsagePercent := 70 }),
               ("Usage", { maxUsagePercent := 90 })]),
            addCpuUsageAlarm := some [("CpuHigh", { maxUsagePercent := 75 })],
            useCreatedAlarms := true }).createdAlarms.filter
          (isDiskAlarmFor "Usage")).map (fun a => a.threshold) =
      (([(("Usage" : String), ({ maxUsagePercent := 70 } : UsageThreshold)),
          ("Usage", { maxUsagePercent := 90 })].filter
            (fun p => p.1 == "Usage")).map Prod.snd).getLast?.toList ∧
    ((RedshiftClusterMonitoring.construct "MyCluster" none
          { clusterIdentifier := "cluster-1",
            addDiskSpaceUsageAlarm := some (recordOfEntries
              [("Usage", { maxUsagePercent := 70 }),
               ("Usage", { maxUsagePercent := 90 })]),
            addCpuUsageAlarm := some [("CpuHigh", { maxUsagePercent := 75 })],
            useCreatedAlarms := true }).createdAlarms.filter
          (isDiskAlarmFor "Usage")).length = 1 ∧
    ((RedshiftClusterMonitoring.construct "MyCluster" none
          { clusterIdentifier := "cluster-1",
            addDiskSpaceUsageAlarm := some [("DiskHigh", { maxUsagePercent := 85 })],
            addCpuUsageAlarm := some (recordOfEntries
              [("Usage", { maxUsagePercent := 70 }),
               ("Usage", { maxUsagePercent := 90 })]),
            useCreatedAlarms := false }).createdAlarms.filter
          (isCpuAlarmFor "Usage")).map (fun a => a.threshold) =
      (([(("Usage" : String), ({ maxUsagePercent := 70 } : UsageThreshold)),
          ("Usage", { maxUsagePercent := 90 })].filter
            (fun p => p.1 == "Usage")).map Prod.snd).getLast?.toList ∧
    ((RedshiftClusterMonitoring.construct "MyCluster" none
          { clusterIdentifier := "cluster-1",
            addDiskSpaceUsageAlarm := some [("DiskHigh", { maxUsagePercent := 85 })],
            addCpuUsageAlarm := some (recordOfEntries
              [("Usage", { maxUsagePercent := 70 }),
               ("Usage", { maxUsagePercent := 90 })]),
            useCreatedAlarms := false }).createdAlarms.filter
          (isCpuAlarmFor "Usage")).length = 1 ∧
    (RedshiftClusterMonitoring.constructE okDiskFactory okCpuFactory "MyCluster" none
        { clusterIdentifier := "cluster-1",
          addDiskSpaceUsageAlarm := some (recordOfEntries
            [("Usage", { maxUsagePercent := 70 }),
             ("Usage", { maxUsagePercent := 90 })]),
          addCpuUsageAlarm := some [("CpuHigh", { maxUsagePercent := 75 })],
          useCreatedAlarms := true }).2 = none ∧
    (RedshiftClusterMonitoring.constructE okDiskFactory okCpuFactory "MyCluster" none
        { clusterIdentifier := "cluster-1",
          addDiskSpaceUsageAlarm := some [("DiskHigh", { maxUsagePercent := 85 })],
          addCpuUsageAlarm := some (recordOfEntries
            [("Usage", { maxUsagePercent := 70 }),
             ("Usage", { maxUsagePercent := 90 })]),
          useCreatedAlarms := false }).2 = none :=
  c8_duplicate_disambiguator_last_write_wins "MyCluster" none "cluster-1"
    [("Usage", { maxUsagePercent := 70 }), ("Usage", { maxUsagePercent := 90 })]
    "Usage" (some [("CpuHigh", { maxUsagePercent := 75 })])
    (some [("DiskHigh", { maxUsagePercent := 85 })]) true false (by decide)
